import Mathlib

/-!
Shallow embedding of the video-analysis core of `apps/backend/app/video_analyzer_v2.py`
(class `VideoAnalyzer`): keypoint extraction, compensation analysis, key-moment
selection, skeleton-overlay rendering and the degraded ("mock") mode.
Python floats are modelled as exact rationals. -/

namespace RehabMotion

/-- One named pose keypoint, as stored in the `keypoints` entry of a frame record
(`_extract_keypoints` output shape). -/
structure Keypoint where
  name : String
  x : ℚ
  y : ℚ
  z : ℚ
  visibility : ℚ
deriving DecidableEq

/-- One entry of `keypoints_data`: `{"frame": ..., "time": ..., "keypoints": [...]}`. -/
structure FrameRecord where
  frame : ℕ
  time : ℚ
  keypoints : List Keypoint
deriving DecidableEq

/-- Dictionary built by `{kp["name"]: kp for kp in frame_data["keypoints"]}`:
a lookup by name where a later duplicate overwrites an earlier one. -/
def kpLookup (kps : List Keypoint) (n : String) : Option Keypoint :=
  (kps.filter (fun kp => kp.name == n)).getLast?

/-- The six landmark names `_analyze_compensation` requires in a frame. -/
def requiredLandmarks : List String :=
  ["left_hip", "right_hip", "left_knee", "right_knee", "left_ankle", "right_ankle"]

/-- Per-frame quantities computed inside the loop of `_analyze_compensation`. -/
structure FrameStats where
  hipShift : ℚ
  hipShiftDirection : ℚ
  kneeAsymmetry : ℚ
  kneeDepthDiff : ℚ
deriving DecidableEq

/-- The body of the per-frame loop of `_analyze_compensation`: `none` when the
frame is skipped by the `all(k in keypoints for k in [...])` guard, otherwise
the four per-frame quantities. -/
def frameStats (kps : List Keypoint) : Option FrameStats := do
  let lh ← kpLookup kps "left_hip"
  let rh ← kpLookup kps "right_hip"
  let lk ← kpLookup kps "left_knee"
  let rk ← kpLookup kps "right_knee"
  let la ← kpLookup kps "left_ankle"
  let ra ← kpLookup kps "right_ankle"
  let hipCenterX := (lh.x + rh.x) / 2
  let hipShiftDirection := hipCenterX - 1/2
  let leftKneeFlexion := |lk.y - la.y|
  let rightKneeFlexion := |rk.y - ra.y|
  let kneeDepthDiff := leftKneeFlexion - rightKneeFlexion
  pure { hipShift := |hipShiftDirection|
         hipShiftDirection := hipShiftDirection
         kneeAsymmetry := |kneeDepthDiff|
         kneeDepthDiff := kneeDepthDiff }

/-- `np.mean` of a list (sum divided by length; 0 for the empty list since
division by zero yields 0, though the analyzer only takes means of
non-empty lists). -/
def listMean (l : List ℚ) : ℚ := l.sum / l.length

/-- `np.max` of a list (the analyzer only applies it to non-empty lists). -/
def listMax : List ℚ → ℚ
  | [] => 0
  | x :: xs => xs.foldl max x

/-- The `metrics` sub-dictionary of a full analysis result. -/
structure SessionMetrics where
  avg_hip_shift : ℚ
  max_hip_shift : ℚ
  avg_knee_asymmetry : ℚ
  max_knee_asymmetry : ℚ
  compensating_side : String
  shift_direction : String
deriving DecidableEq

/-- The full analysis dictionary returned when qualifying frames exist. -/
structure FullAnalysis where
  compensation_detected : Bool
  knee_flexion_angle : ℕ
  message : String
  recommendation : String
  compensating_side : String
  shift_direction : String
  metrics : SessionMetrics
deriving DecidableEq

/-- Result of `_analyze_compensation`: either one of the two short dictionaries
`{"compensation_detected": b, "message": m}` (no further fields), or the full
analysis dictionary. -/
inductive AnalysisResult where
  | simple (compensation_detected : Bool) (message : String)
  | full (a : FullAnalysis)
deriving DecidableEq

/-- The `compensation_detected` field of an analysis result. -/
def AnalysisResult.detected : AnalysisResult → Bool
  | .simple d _ => d
  | .full a => a.compensation_detected

/-- The `compensating_side` field of an analysis result (only the full result
has one; the short dictionaries yield the empty string). -/
def AnalysisResult.side : AnalysisResult → String
  | .simple _ _ => ""
  | .full a => a.compensating_side

/-- `VideoAnalyzer._analyze_compensation`. -/
def analyzeCompensation (keypointsData : List FrameRecord) : AnalysisResult :=
  if keypointsData.isEmpty then
    .simple false "No pose data available for analysis"
  else
    let stats := keypointsData.filterMap (fun fr => frameStats fr.keypoints)
    let hip_shifts := stats.map (fun s => s.hipShift)
    let hip_shift_directions := stats.map (fun s => s.hipShiftDirection)
    let knee_asymmetries := stats.map (fun s => s.kneeAsymmetry)
    let knee_depth_diffs := stats.map (fun s => s.kneeDepthDiff)
    if !hip_shifts.isEmpty && !knee_asymmetries.isEmpty then
      let avg_hip_shift := listMean hip_shifts
      let max_hip_shift := listMax hip_shifts
      let avg_knee_asymmetry := listMean knee_asymmetries
      let max_knee_asymmetry := listMax knee_asymmetries
      let avg_hip_direction := listMean hip_shift_directions
      let avg_knee_depth := listMean knee_depth_diffs
      let compensating_side := if avg_knee_depth > 0 then "left" else "right"
      let shift_direction := if avg_hip_direction > 0 then "right" else "left"
      let compensation_detected : Bool :=
        decide (max_hip_shift > 5/100) || decide (max_knee_asymmetry > 8/100)
      let message :=
        if compensation_detected then
          "Load shifts away from " ++ compensating_side ++ " leg - " ++
            compensating_side ++ " side compensation detected"
        else "No significant compensation detected"
      let recommendation :=
        if compensation_detected then
          "Focus on loading " ++ compensating_side ++ " leg symmetrically during squats."
        else "Continue current rehabilitation protocol."
      .full
        { compensation_detected := compensation_detected
          knee_flexion_angle := 32
          message := message
          recommendation := recommendation
          compensating_side := compensating_side
          shift_direction := shift_direction
          metrics :=
            { avg_hip_shift := avg_hip_shift
              max_hip_shift := max_hip_shift
              avg_knee_asymmetry := avg_knee_asymmetry
              max_knee_asymmetry := max_knee_asymmetry
              compensating_side := compensating_side
              shift_direction := shift_direction } }
    else
      .simple false "Insufficient data for analysis"

/-! Spec-side definitions for the analyzer claims, written from the
specification's wording: a frame qualifies when it contains the six
hip/knee/ankle landmarks, and the per-frame hip shift, knee asymmetry and
knee depth difference are as the spec defines them. -/

/-- Spec wording: a frame containing left/right hip, left/right knee and
left/right ankle. -/
def specQualifies (fr : FrameRecord) : Bool :=
  requiredLandmarks.all (fun n => (kpLookup fr.keypoints n).isSome)

/-- Default keypoint used only to totalize the spec-side accessors below. -/
def defaultKp : Keypoint := { name := "", x := 0, y := 0, z := 0, visibility := 0 }

/-- Spec wording: `((left_hip.x + right_hip.x)/2) - 0.5`. -/
def specHipShiftDirection (fr : FrameRecord) : ℚ :=
  ((kpLookup fr.keypoints "left_hip").getD defaultKp).x / 2 +
    ((kpLookup fr.keypoints "right_hip").getD defaultKp).x / 2 - 1/2

/-- Spec wording: `|((left_hip.x + right_hip.x)/2) - 0.5|`. -/
def specHipShift (fr : FrameRecord) : ℚ := |specHipShiftDirection fr|

/-- Spec wording: `|left_knee.y - left_ankle.y| - |right_knee.y - right_ankle.y|`. -/
def specKneeDepthDiff (fr : FrameRecord) : ℚ :=
  |((kpLookup fr.keypoints "left_knee").getD defaultKp).y -
      ((kpLookup fr.keypoints "left_ankle").getD defaultKp).y| -
    |((kpLookup fr.keypoints "right_knee").getD defaultKp).y -
      ((kpLookup fr.keypoints "right_ankle").getD defaultKp).y|

/-- Spec wording: `||left_knee.y - left_ankle.y| - |right_knee.y - right_ankle.y||`. -/
def specKneeAsymmetry (fr : FrameRecord) : ℚ := |specKneeDepthDiff fr|

/-- Spec-side maximum of the hip shift over qualifying frames. -/
def specMaxHipShift (data : List FrameRecord) : ℚ :=
  listMax ((data.filter specQualifies).map specHipShift)

/-- Spec-side maximum of the knee asymmetry over qualifying frames. -/
def specMaxKneeAsymmetry (data : List FrameRecord) : ℚ :=
  listMax ((data.filter specQualifies).map specKneeAsymmetry)

/-- Spec-side mean of the knee depth difference over qualifying frames. -/
def specAvgKneeDepthDiff (data : List FrameRecord) : ℚ :=
  listMean ((data.filter specQualifies).map specKneeDepthDiff)

/-- The per-frame stats of a qualifying frame, stated with the spec-side
accessors. -/
def specStats (fr : FrameRecord) : FrameStats :=
  { hipShift := specHipShift fr
    hipShiftDirection := specHipShiftDirection fr
    kneeAsymmetry := specKneeAsymmetry fr
    kneeDepthDiff := specKneeDepthDiff fr }

theorem frameStats_eq_spec (fr : FrameRecord) :
    frameStats fr.keypoints = if specQualifies fr then some (specStats fr) else none := by
  unfold frameStats specQualifies requiredLandmarks
  cases h1 : kpLookup fr.keypoints "left_hip" <;>
    cases h2 : kpLookup fr.keypoints "right_hip" <;>
      cases h3 : kpLookup fr.keypoints "left_knee" <;>
        cases h4 : kpLookup fr.keypoints "right_knee" <;>
          cases h5 : kpLookup fr.keypoints "left_ankle" <;>
            cases h6 : kpLookup fr.keypoints "right_ankle" <;>
  simp [Option.bind, List.all, h1, h2, h3, h4, h5, h6, specStats, specHipShift,
    specHipShiftDirection, specKneeAsymmetry, specKneeDepthDiff] <;>
  constructor <;> ring_nf

theorem filterMap_frameStats_eq (data : List FrameRecord) :
    data.filterMap (fun fr => frameStats fr.keypoints) =
      (data.filter specQualifies).map specStats := by
  induction data with
  | nil => rfl
  | cons fr rest ih =>
    simp only [List.filterMap_cons, List.filter_cons, frameStats_eq_spec] at ih ⊢
    by_cases h : specQualifies fr <;> simp [h, ih]

/-- Spec-side mean of the hip shift over qualifying frames. -/
def specAvgHipShift (data : List FrameRecord) : ℚ :=
  listMean ((data.filter specQualifies).map specHipShift)

/-- Spec-side mean of the signed hip shift direction over qualifying frames. -/
def specAvgHipShiftDirection (data : List FrameRecord) : ℚ :=
  listMean ((data.filter specQualifies).map specHipShiftDirection)

/-- Spec-side mean of the knee asymmetry over qualifying frames. -/
def specAvgKneeAsymmetry (data : List FrameRecord) : ℚ :=
  listMean ((data.filter specQualifies).map specKneeAsymmetry)

/-- Spec-side detection decision: `max_hip_shift > 0.05 OR max_knee_asymmetry > 0.08`. -/
def specDetected (data : List FrameRecord) : Bool :=
  decide (specMaxHipShift data > 5/100) || decide (specMaxKneeAsymmetry data > 8/100)

/-- Spec-side side attribution: `"left" if avg_knee_depth_diff > 0 else "right"`. -/
def specSide (data : List FrameRecord) : String :=
  if specAvgKneeDepthDiff data > 0 then "left" else "right"

/-- Spec-side shift direction: `"right" if avg_hip_shift_direction > 0 else "left"`. -/
def specShiftDirection (data : List FrameRecord) : String :=
  if specAvgHipShiftDirection data > 0 then "right" else "left"

theorem analyzeCompensation_char (data : List FrameRecord)
    (h : data.filter specQualifies ≠ []) :
    analyzeCompensation data = .full
      { compensation_detected := specDetected data
        knee_flexion_angle := 32
        message :=
          if specDetected data then
            "Load shifts away from " ++ specSide data ++ " leg - " ++
              specSide data ++ " side compensation detected"
          else "No significant compensation detected"
        recommendation :=
          if specDetected data then
            "Focus on loading " ++ specSide data ++ " leg symmetrically during squats."
          else "Continue current rehabilitation protocol."
        compensating_side := specSide data
        shift_direction := specShiftDirection data
        metrics :=
          { avg_hip_shift := specAvgHipShift data
            max_hip_shift := specMaxHipShift data
            avg_knee_asymmetry := specAvgKneeAsymmetry data
            max_knee_asymmetry := specMaxKneeAsymmetry data
            compensating_side := specSide data
            shift_direction := specShiftDirection data } } := by
  have hdata : data.isEmpty = false := by
    cases data with
    | nil => simp at h
    | cons a l => rfl
  unfold analyzeCompensation
  rw [filterMap_frameStats_eq]
  have hmapne : ((data.filter specQualifies).map specStats).isEmpty = false := by
    simp [List.isEmpty_iff, h]
  simp only [hdata, Bool.false_eq_true, if_false, hmapne, List.map_map, Bool.not_false,
    Bool.and_self, if_true]
  simp only [Function.comp_def, specStats]
  have h1 : (List.map (fun x => specHipShift x) (List.filter specQualifies data)).isEmpty
      = false := by simp [List.isEmpty_iff, h]
  have h2 : (List.map (fun x => specKneeAsymmetry x) (List.filter specQualifies data)).isEmpty
      = false := by simp [List.isEmpty_iff, h]
  simp only [h1, h2, Bool.not_false, Bool.and_self, if_true]
  rfl

/-- Claim C1: with at least one qualifying frame, `compensation_detected` is true
iff the maximum hip shift over qualifying frames exceeds 0.05 or the maximum
knee asymmetry over qualifying frames exceeds 0.08, both strictly. -/
theorem compensation_detected_iff (data : List FrameRecord)
    (h : ∃ fr ∈ data, specQualifies fr = true) :
    (analyzeCompensation data).detected = true ↔
      (specMaxHipShift data > 5/100 ∨ specMaxKneeAsymmetry data > 8/100) := by
  obtain ⟨fr, hfr, hq⟩ := h
  have hne : data.filter specQualifies ≠ [] := by
    intro he
    have : fr ∈ data.filter specQualifies := List.mem_filter.mpr ⟨hfr, hq⟩
    rw [he] at this
    exact absurd this (List.not_mem_nil fr)
  rw [analyzeCompensation_char data hne]
  simp [AnalysisResult.detected, specDetected]

/-- A frame with all six required landmarks and a large hip shift, used to
instantiate the analyzer claims. -/
def wFrame : FrameRecord :=
  { frame := 0
    time := 0
    keypoints :=
      [ { name := "left_hip", x := 7/10, y := 1/2, z := 0, visibility := 1 }
      , { name := "right_hip", x := 7/10, y := 1/2, z := 0, visibility := 1 }
      , { name := "left_knee", x := 1/2, y := 65/100, z := 0, visibility := 1 }
      , { name := "right_knee", x := 1/2, y := 60/100, z := 0, visibility := 1 }
      , { name := "left_ankle", x := 1/2, y := 85/100, z := 0, visibility := 1 }
      , { name := "right_ankle", x := 1/2, y := 85/100, z := 0, visibility := 1 } ] }

theorem compensation_detected_iff_witness :
    (∃ fr ∈ [wFrame], specQualifies fr = true) ∧
      ((analyzeCompensation [wFrame]).detected = true ↔
        (specMaxHipShift [wFrame] > 5/100 ∨ specMaxKneeAsymmetry [wFrame] > 8/100)) :=
  ⟨by decide, compensation_detected_iff [wFrame] (by decide)⟩

/-- Claim C2: with at least one qualifying frame, `compensating_side` is
`"left"` iff the mean knee depth difference over qualifying frames is strictly
positive; in particular a mean of exactly 0 resolves to `"right"`. -/
theorem compensating_side_iff (data : List FrameRecord)
    (h : ∃ fr ∈ data, specQualifies fr = true) :
    ((analyzeCompensation data).side = "left" ↔ specAvgKneeDepthDiff data > 0) ∧
      (specAvgKneeDepthDiff data = 0 → (analyzeCompensation data).side = "right") := by
  obtain ⟨fr, hfr, hq⟩ := h
  have hne : data.filter specQualifies ≠ [] := by
    intro he
    have : fr ∈ data.filter specQualifies := List.mem_filter.mpr ⟨hfr, hq⟩
    rw [he] at this
    exact absurd this (List.not_mem_nil fr)
  rw [analyzeCompensation_char data hne]
  constructor
  · by_cases hd : specAvgKneeDepthDiff data > 0 <;>
      simp [AnalysisResult.side, specSide, hd]
  · intro h0
    have hd : ¬ specAvgKneeDepthDiff data > 0 := by rw [h0]; exact lt_irrefl 0
    simp [AnalysisResult.side, specSide, hd]

theorem compensating_side_iff_witness :
    (∃ fr ∈ [wFrame], specQualifies fr = true) ∧
      (((analyzeCompensation [wFrame]).side = "left" ↔
          specAvgKneeDepthDiff [wFrame] > 0) ∧
        (specAvgKneeDepthDiff [wFrame] = 0 →
          (analyzeCompensation [wFrame]).side = "right")) :=
  ⟨by decide, compensating_side_iff [wFrame] (by decide)⟩

/-! Key-moment selection (`_extract_key_moments`). The video re-seek/read and
image writing are side effects; the read success at a given frame index is
abstracted as a boolean `readOk`, and `stem` is the video file's base name. -/

/-- One entry of the `key_times` list of `_extract_key_moments`. -/
structure KeyTime where
  time : ℚ
  label : String
  type : String
deriving DecidableEq

/-- The literal `key_times` list: targets at 20%, 50% and 80% of the duration. -/
def keyTimes (duration : ℚ) : List KeyTime :=
  [ { time := duration * (2/10), label := "Neutral", type := "neutral" }
  , { time := duration * (5/10), label := "Compensation peak", type := "peak" }
  , { time := duration * (8/10), label := "Recovery phase", type := "recovery" } ]

/-- One returned key-moment dictionary. -/
structure KeyMoment where
  time : ℚ
  frame : ℕ
  label : String
  type : String
  image : String
deriving DecidableEq

/-- Python `min(l, key=f)`: the first element attaining the minimal key
(`none` on an empty list, where Python would raise). -/
def pickMin {α : Type} (f : α → ℚ) : List α → Option α
  | [] => none
  | x :: xs => some (xs.foldl (fun best y => if f y < f best then y else best) x)

/-- `VideoAnalyzer._extract_key_moments` (the returned descriptor list; the
annotated image written for each kept moment is a side effect). -/
def extractKeyMoments (readOk : ℕ → Bool) (stem : String)
    (keypointsData : List FrameRecord) (fps : ℚ) : List KeyMoment :=
  if keypointsData.isEmpty then []
  else
    let duration := if fps > 0 then (keypointsData.length : ℚ) * 2 / fps else 0
    (keyTimes duration).filterMap (fun kt =>
      match pickMin (fun x => |x.time - kt.time|) keypointsData with
      | none => none
      | some cf =>
        if readOk cf.frame then
          some { time := cf.time, frame := cf.frame, label := kt.label, type := kt.type,
                 image := stem ++ "_" ++ kt.type ++ ".png" }
        else none)

theorem foldl_pickMin_split {α : Type} (f : α → ℚ) :
    ∀ (l : List α) (b : α),
      ∃ l1 l2,
        b :: l = l1 ++ (l.foldl (fun best y => if f y < f best then y else best) b) :: l2 ∧
          (∀ y ∈ l1, f (l.foldl (fun best y => if f y < f best then y else best) b) < f y) ∧
          (∀ y ∈ l2, f (l.foldl (fun best y => if f y < f best then y else best) b) ≤ f y)
  | [], b => ⟨[], [], rfl, by simp, by simp⟩
  | x :: xs, b => by
    simp only [List.foldl_cons]
    by_cases hx : f x < f b
    · simp only [if_pos hx]
      obtain ⟨l1, l2, heq, hpre, hsuf⟩ := foldl_pickMin_split f xs x
      set res := xs.foldl (fun best y => if f y < f best then y else best) x
      refine ⟨b :: l1, l2, ?_, ?_, hsuf⟩
      · rw [List.cons_append, ← heq]
      · intro y hy
        rcases List.mem_cons.mp hy with rfl | hy'
        · have hrx : f res ≤ f x := by
            cases l1 with
            | nil =>
              have h0 := heq
              simp only [List.nil_append] at h0
              have hxr : x = res := ((List.cons.injEq _ _ _ _).mp h0).1
              exact le_of_eq (congrArg f hxr.symm)
            | cons z l1' =>
              have h0 := heq
              simp only [List.cons_append] at h0
              have hxz : x = z := ((List.cons.injEq _ _ _ _).mp h0).1
              have hlt : f res < f z := hpre z (List.mem_cons_self z l1')
              rw [← hxz] at hlt
              exact le_of_lt hlt
          exact lt_of_le_of_lt hrx hx
        · exact hpre y hy'
    · simp only [if_neg hx]
      have hble : f b ≤ f x := le_of_not_lt hx
      obtain ⟨l1, l2, heq, hpre, hsuf⟩ := foldl_pickMin_split f xs b
      set res := xs.foldl (fun best y => if f y < f best then y else best) b
      cases l1 with
      | nil =>
        have h0 := heq
        simp only [List.nil_append] at h0
        have hbr : b = res := ((List.cons.injEq _ _ _ _).mp h0).1
        have hxl : xs = l2 := ((List.cons.injEq _ _ _ _).mp h0).2
        refine ⟨[], x :: xs, ?_, by simp, ?_⟩
        · rw [List.nil_append, ← hbr]
        · intro y hy
          rcases List.mem_cons.mp hy with rfl | hy'
          · rw [← hbr]; exact hble
          · exact hsuf y (hxl ▸ hy')
      | cons z l1' =>
        have h0 := heq
        simp only [List.cons_append] at h0
        have hbz : b = z := ((List.cons.injEq _ _ _ _).mp h0).1
        have hxl : xs = l1' ++ res :: l2 := ((List.cons.injEq _ _ _ _).mp h0).2
        have hresb : f res < f b := by
          have hlt := hpre z (List.mem_cons_self z l1')
          rw [← hbz] at hlt
          exact hlt
        refine ⟨b :: x :: l1', l2, ?_, ?_, hsuf⟩
        · rw [List.cons_append, List.cons_append, ← hxl]
        · intro y hy
          rcases List.mem_cons.mp hy with rfl | hy'
          · exact hresb
          · rcases List.mem_cons.mp hy' with rfl | hy''
            · exact lt_of_lt_of_le hresb hble
            · exact hpre y (List.mem_cons_of_mem z hy'')

theorem pickMin_split {α : Type} (f : α → ℚ) (l : List α) (r : α)
    (h : pickMin f l = some r) :
    ∃ l1 l2, l = l1 ++ r :: l2 ∧ (∀ y ∈ l1, f r < f y) ∧ (∀ y ∈ l2, f r ≤ f y) := by
  cases l with
  | nil => simp [pickMin] at h
  | cons x xs =>
    obtain ⟨l1, l2, heq, hpre, hsuf⟩ := foldl_pickMin_split f xs x
    have hr : xs.foldl (fun best y => if f y < f best then y else best) x = r := by
      simpa [pickMin] using h
    rw [hr] at heq hpre hsuf
    exact ⟨l1, l2, heq, hpre, hsuf⟩

/-- Claim C5: the key-moment selector returns at most 3 moments; the three
targets sit at 20%, 50% and 80% of `(#sampled frames) × 2 / fps` (0 when fps
is not positive) with the fixed labels and types; and every returned moment's
record is the one whose timestamp is nearest to its target, the earliest
record winning ties (all earlier records are strictly farther, all later ones
no closer). -/
theorem keyMoments_spec :
    (∀ (readOk : ℕ → Bool) (stem : String) (data : List FrameRecord) (fps : ℚ),
      (extractKeyMoments readOk stem data fps).length ≤ 3) ∧
    (∀ duration : ℚ, keyTimes duration =
      [ { time := duration * (2/10), label := "Neutral", type := "neutral" }
      , { time := duration * (5/10), label := "Compensation peak", type := "peak" }
      , { time := duration * (8/10), label := "Recovery phase", type := "recovery" } ]) ∧
    (∀ (readOk : ℕ → Bool) (stem : String) (data : List FrameRecord) (fps : ℚ)
      (m : KeyMoment), m ∈ extractKeyMoments readOk stem data fps →
      ∃ kt ∈ keyTimes (if fps > 0 then (data.length : ℚ) * 2 / fps else 0),
        m.label = kt.label ∧ m.type = kt.type ∧
        ∃ l1 l2 r, data = l1 ++ r :: l2 ∧ m.time = r.time ∧ m.frame = r.frame ∧
          (∀ y ∈ l1, |r.time - kt.time| < |y.time - kt.time|) ∧
          (∀ y ∈ r :: l2, |r.time - kt.time| ≤ |y.time - kt.time|)) := by
  refine ⟨?_, fun _ => rfl, ?_⟩
  · intro readOk stem data fps
    unfold extractKeyMoments
    by_cases hd : data.isEmpty
    · simp [hd]
    · simp only [hd, if_false]
      exact le_trans (List.length_filterMap_le _ _) (by simp [keyTimes])
  · intro readOk stem data fps m hm
    unfold extractKeyMoments at hm
    by_cases hd : data.isEmpty
    · simp [hd] at hm
    · rw [Bool.not_eq_true] at hd
      simp only [hd, Bool.false_eq_true, if_false] at hm
      obtain ⟨kt, hkt, hsome⟩ := List.mem_filterMap.mp hm
      refine ⟨kt, hkt, ?_⟩
      split at hsome
      · exact absurd hsome (by simp)
      · rename_i cf hpick
        split at hsome
        · have hmval := Option.some.inj hsome
          obtain ⟨l1, l2, heq2, hpre, hsuf⟩ := pickMin_split _ data cf hpick
          refine ⟨by rw [← hmval], by rw [← hmval], l1, l2, cf, heq2, by rw [← hmval],
            by rw [← hmval], hpre, ?_⟩
          intro y hy
          rcases List.mem_cons.mp hy with rfl | hy'
          · exact le_refl _
          · exact hsuf y hy'
        · exact absurd hsome (by simp)

/-- A minimal frame record for instantiating the key-moment claim. -/
def cRecord : FrameRecord := { frame := 0, time := 0, keypoints := [] }

theorem keyMoments_spec_witness :
    ({ time := 0, frame := 0, label := "Neutral", type := "neutral",
       image := "v_neutral.png" } : KeyMoment) ∈
        extractKeyMoments (fun _ => true) "v" [cRecord] 30 ∧
      ∃ kt ∈ keyTimes (if (30:ℚ) > 0 then (([cRecord] : List FrameRecord).length : ℚ) * 2 / 30 else 0),
        ({ time := 0, frame := 0, label := "Neutral", type := "neutral",
           image := "v_neutral.png" } : KeyMoment).label = kt.label ∧
        ({ time := 0, frame := 0, label := "Neutral", type := "neutral",
           image := "v_neutral.png" } : KeyMoment).type = kt.type ∧
        ∃ l1 l2 r, ([cRecord] : List FrameRecord) = l1 ++ r :: l2 ∧
          (0 : ℚ) = r.time ∧ (0 : ℕ) = r.frame ∧
          (∀ y ∈ l1, |r.time - kt.time| < |y.time - kt.time|) ∧
          (∀ y ∈ r :: l2, |r.time - kt.time| ≤ |y.time - kt.time|) :=
  ⟨by decide, keyMoments_spec.2.2 (fun _ => true) "v" [cRecord] 30 _ (by decide)⟩

/-- Claim C6: an empty frame-record sequence yields exactly the two-field
dictionary `{compensation_detected: false, message: "No pose data available
for analysis"}` and an empty key-moment list. -/
theorem empty_input_result :
    analyzeCompensation [] = .simple false "No pose data available for analysis" ∧
      ∀ (readOk : ℕ → Bool) (stem : String) (fps : ℚ),
        extractKeyMoments readOk stem [] fps = [] :=
  ⟨rfl, fun _ _ _ => rfl⟩

/-! Degraded ("mock") mode: `_generate_mock_analysis`. The transcendental
`np.sin(t * np.pi * 6)` is abstracted as a parameter `sinv` giving the sine
value at each generated frame index (for frame `f` the argument is
`f * π / 120`, so `sinv 60` stands for `sin(π/2) = 1`). -/

/-- The nine keypoints of one mock frame, where `s` is the sine value of that
frame (`squat_phase = s`, `compensation = 0.05 * s`). -/
def mockFrameKeypoints (s : ℚ) : List Keypoint :=
  [ { name := "nose", x := 1/2 + (5/100) * s, y := 15/100, z := 0, visibility := 1 }
  , { name := "left_shoulder", x := 45/100 + (5/100) * s, y := 25/100, z := 0, visibility := 1 }
  , { name := "right_shoulder", x := 55/100 + (5/100) * s, y := 25/100, z := 0, visibility := 1 }
  , { name := "left_hip", x := 43/100 + (5/100) * s * 2, y := 1/2 + s * (1/10), z := 0,
      visibility := 1 }
  , { name := "right_hip", x := 57/100 + (5/100) * s * (1/2), y := 1/2 + s * (15/100), z := 0,
      visibility := 1 }
  , { name := "left_knee", x := 42/100 + (5/100) * s * 2, y := 65/100 + s * (15/100), z := 0,
      visibility := 1 }
  , { name := "right_knee", x := 58/100 + (5/100) * s * (1/2), y := 65/100 + s * (1/10), z := 0,
      visibility := 1 }
  , { name := "left_ankle", x := 42/100 + (5/100) * s * (3/2), y := 85/100, z := 0,
      visibility := 1 }
  , { name := "right_ankle", x := 58/100 + (5/100) * s * (3/10), y := 85/100, z := 0,
      visibility := 1 } ]

/-- The mock record generated for loop index `i` (`frame = 2 * i`, matching
`range(0, 720, 2)`; `time = frame / 30.0`). -/
def mockRecord (sinv : ℕ → ℚ) (i : ℕ) : FrameRecord :=
  { frame := 2 * i, time := (2 * i : ℚ) / 30, keypoints := mockFrameKeypoints (sinv (2 * i)) }

/-- The full mock `keypoints_data` list: frames 0, 2, ..., 718. -/
def mockKeypointsData (sinv : ℕ → ℚ) : List FrameRecord :=
  (List.range 360).map (mockRecord sinv)

/-- The canned `analysis` dictionary of the mock report (only these four
fields). -/
structure MockAnalysis where
  compensation_detected : Bool
  knee_flexion_angle : ℕ
  message : String
  recommendation : String
deriving DecidableEq

/-- The literal canned analysis of `_generate_mock_analysis`. -/
def mockAnalysis : MockAnalysis :=
  { compensation_detected := true
    knee_flexion_angle := 32
    message := "Load shifts to healthy leg at 32° knee flexion (mock analysis)"
    recommendation := "Focus on slow, symmetrical knee loading." }

/-- The top-level dictionary returned by `_generate_mock_analysis`. -/
structure MockReport where
  keypoints_data : List FrameRecord
  fps : ℚ
  total_frames : ℕ
  duration : ℚ
  analysis : MockAnalysis

/-- `VideoAnalyzer._generate_mock_analysis`. -/
def generateMockAnalysis (sinv : ℕ → ℚ) : MockReport :=
  { keypoints_data := mockKeypointsData sinv
    fps := 30
    total_frames := 720
    duration := 24
    analysis := mockAnalysis }

/-- The key set of the dictionary returned by `_generate_mock_analysis`
(lines 492-503), in insertion order. -/
def mockReportKeys : List String :=
  ["keypoints_data", "fps", "total_frames", "duration", "analysis"]

/-- The key set of the dictionary returned by `analyze_video` on the normal
path (lines 148-155), in insertion order. -/
def normalReportKeys : List String :=
  ["keypoints_data", "fps", "total_frames", "duration", "analysis", "key_moments"]

/-- The key set of the canned `analysis` dictionary of
`_generate_mock_analysis`. -/
def mockAnalysisKeys : List String :=
  ["compensation_detected", "knee_flexion_angle", "message", "recommendation"]

/-- The key set of the full analysis dictionary produced by
`_analyze_compensation` when qualifying frames exist. -/
def fullAnalysisKeys : List String :=
  ["compensation_detected", "knee_flexion_angle", "message", "recommendation",
   "compensating_side", "shift_direction", "metrics"]

theorem le_foldl_max (l : List ℚ) : ∀ a : ℚ, a ≤ l.foldl max a := by
  induction l with
  | nil => intro a; exact le_refl a
  | cons y ys ih => intro a; exact le_trans (le_max_left a y) (ih (max a y))

theorem le_foldl_max_of_mem {x : ℚ} {l : List ℚ} (h : x ∈ l) : ∀ a : ℚ, x ≤ l.foldl max a := by
  induction l with
  | nil => cases h
  | cons y ys ih =>
    intro a
    rcases List.mem_cons.mp h with rfl | h'
    · exact le_trans (le_max_right a x) (le_foldl_max ys (max a x))
    · exact ih h' (max a y)

theorem le_listMax_of_mem {x : ℚ} {l : List ℚ} (h : x ∈ l) : x ≤ listMax l := by
  cases l with
  | nil => cases h
  | cons a as =>
    rcases List.mem_cons.mp h with rfl | h'
    · exact le_foldl_max as x
    · exact le_foldl_max_of_mem h' a

/-- Claim C4: whenever the abstracted sine takes the value 1 at frame 60
(which the real `sin(frame·π/120)` does), the mock keypoint sequence run
through `_analyze_compensation` reports `compensation_detected = true` (its
hip shift at that frame is 0.0625 > 0.05). -/
theorem mock_detects_compensation (sinv : ℕ → ℚ) (h : sinv 60 = 1) :
    (analyzeCompensation (mockKeypointsData sinv)).detected = true := by
  have h60 : sinv (2 * 30) = 1 := h
  have hq : specQualifies (mockRecord sinv 30) = true := by
    unfold mockRecord
    rw [h60]
    decide
  have hmem : mockRecord sinv 30 ∈ mockKeypointsData sinv :=
    List.mem_map.mpr ⟨30, List.mem_range.mpr (by norm_num), rfl⟩
  have hfil : mockRecord sinv 30 ∈ (mockKeypointsData sinv).filter specQualifies :=
    List.mem_filter.mpr ⟨hmem, hq⟩
  have hne := List.ne_nil_of_mem hfil
  rw [analyzeCompensation_char _ hne]
  show specDetected (mockKeypointsData sinv) = true
  unfold specDetected
  have hv : specHipShift (mockRecord sinv 30) = 1/16 := by
    have hk : (mockRecord sinv 30).keypoints = mockFrameKeypoints 1 := by
      unfold mockRecord
      rw [h60]
    have hlh : kpLookup (mockFrameKeypoints 1) "left_hip" =
        some { name := "left_hip", x := 43/100 + (5/100) * 1 * 2, y := 1/2 + 1 * (1/10),
               z := 0, visibility := 1 } := rfl
    have hrh : kpLookup (mockFrameKeypoints 1) "right_hip" =
        some { name := "right_hip", x := 57/100 + (5/100) * 1 * (1/2), y := 1/2 + 1 * (15/100),
               z := 0, visibility := 1 } := rfl
    unfold specHipShift specHipShiftDirection
    rw [hk, hlh, hrh]
    norm_num [Option.getD_some]
  have hmm : specHipShift (mockRecord sinv 30) ∈
      ((mockKeypointsData sinv).filter specQualifies).map specHipShift :=
    List.mem_map_of_mem _ hfil
  have hle : specHipShift (mockRecord sinv 30) ≤ specMaxHipShift (mockKeypointsData sinv) :=
    le_listMax_of_mem hmm
  rw [hv] at hle
  have hgt : specMaxHipShift (mockKeypointsData sinv) > 5/100 :=
    lt_of_lt_of_le (by norm_num) hle
  simp [hgt]

theorem mock_detects_compensation_witness :
    (fun _ : ℕ => (1:ℚ)) 60 = 1 ∧
      (analyzeCompensation (mockKeypointsData (fun _ => 1))).detected = true :=
  ⟨rfl, mock_detects_compensation (fun _ => 1) rfl⟩

/-- Claim C3 counterexample: the degraded-mode report does not have the same
shape as the normal report — its key set lacks `key_moments`, and its canned
analysis lacks `compensating_side`, `shift_direction` and `metrics`. -/
theorem mock_report_shape_cex :
    ¬ ("key_moments" ∈ mockReportKeys ∧ "compensating_side" ∈ mockAnalysisKeys ∧
        "shift_direction" ∈ mockAnalysisKeys ∧ "metrics" ∈ mockAnalysisKeys) := by
  decide

/-- Claim C3 amended: when the pose-detection capability cannot be
initialized, `analyze_video` still returns a report rather than failing, with
the top-level keys `keypoints_data`, `fps`, `total_frames`, `duration` and
`analysis` — the normal report's keys minus `key_moments` — and a canned
analysis with `compensation_detected = true` that carries only the four keys
`compensation_detected`, `knee_flexion_angle`, `message`, `recommendation`
(the normal full analysis keys minus `compensating_side`, `shift_direction`
and `metrics`). -/
theorem mock_report_shape :
    (∀ sinv : ℕ → ℚ, (generateMockAnalysis sinv).analysis.compensation_detected = true) ∧
      normalReportKeys = mockReportKeys ++ ["key_moments"] ∧
      "key_moments" ∉ mockReportKeys ∧
      fullAnalysisKeys =
        mockAnalysisKeys ++ ["compensating_side", "shift_direction", "metrics"] ∧
      "compensating_side" ∉ mockAnalysisKeys ∧
      "shift_direction" ∉ mockAnalysisKeys ∧
      "metrics" ∉ mockAnalysisKeys :=
  ⟨fun _ => rfl, rfl, by decide, rfl, by decide, by decide, by decide⟩

/-! `analyze_video`: frame loop, per-frame exception recovery, fatal open
failures, degraded mode. The external resources are abstracted: `fileExists`
and `canOpen` model `video_path.exists()` and `cap.isOpened()`, `readFrames`
is the number of frames delivered by sequential `cap.read()` before the first
failure, and `detect` is the per-frame pose detection, which may raise
(`.error`), find no pose (`.ok none`) or return landmarks. -/

/-- One raw MediaPipe landmark (`landmark.x/y/z/visibility`). -/
structure RawLandmark where
  x : ℚ
  y : ℚ
  z : ℚ
  visibility : ℚ
deriving DecidableEq

/-- The `POSE_LANDMARKS` dictionary, in insertion order. -/
def POSE_LANDMARKS : List (ℕ × String) :=
  [(0, "nose"), (11, "left_shoulder"), (12, "right_shoulder"), (23, "left_hip"),
   (24, "right_hip"), (25, "left_knee"), (26, "right_knee"), (27, "left_ankle"),
   (28, "right_ankle")]

/-- `VideoAnalyzer._extract_keypoints`: one keypoint per `POSE_LANDMARKS`
entry, in order. -/
def extractKeypoints (lm : ℕ → RawLandmark) : List Keypoint :=
  POSE_LANDMARKS.map (fun p =>
    { name := p.2, x := (lm p.1).x, y := (lm p.1).y, z := (lm p.1).z,
      visibility := (lm p.1).visibility })

/-- The abstracted video source state read by `analyze_video`. -/
structure VideoEnv where
  fileExists : Bool
  canOpen : Bool
  fps : ℚ
  totalFrames : ℕ
  readFrames : ℕ

/-- The two exceptions `analyze_video` raises (`FileNotFoundError`,
`RuntimeError` on open failure). -/
inductive AnalyzeError where
  | fileNotFound
  | openFailed
deriving DecidableEq

/-- The detection loop of `analyze_video`: every 2nd frame is processed, a
per-frame exception or an empty detection contributes no record, a detection
appends `{frame, time, keypoints}`. -/
def detectLoop (detect : ℕ → Except Unit (Option (ℕ → RawLandmark))) (fps : ℚ)
    (numFrames : ℕ) : List FrameRecord :=
  (List.range numFrames).filterMap (fun frame =>
    if frame % 2 = 0 then
      match detect frame with
      | .error _ => none
      | .ok none => none
      | .ok (some lm) =>
        some { frame := frame, time := if fps > 0 then (frame : ℚ) / fps else 0,
               keypoints := extractKeypoints lm }
    else none)

/-- The normal-path report of `analyze_video` (lines 148-155). -/
structure Report where
  keypoints_data : List FrameRecord
  fps : ℚ
  total_frames : ℕ
  duration : ℚ
  analysis : AnalysisResult
  key_moments : List KeyMoment

/-- What `analyze_video` hands back on success: either the degraded-mode mock
report or the normal report. -/
inductive VideoReport where
  | degraded (r : MockReport)
  | normal (r : Report)

/-- `VideoAnalyzer.analyze_video`. -/
def analyzeVideo (detectorAvailable : Bool) (sinv : ℕ → ℚ) (env : VideoEnv)
    (detect : ℕ → Except Unit (Option (ℕ → RawLandmark))) (readOk : ℕ → Bool)
    (stem : String) : Except AnalyzeError VideoReport :=
  if !env.fileExists then .error .fileNotFound
  else if !detectorAvailable then .ok (.degraded (generateMockAnalysis sinv))
  else if !env.canOpen then .error .openFailed
  else
    let kd := detectLoop detect env.fps env.readFrames
    .ok (.normal
      { keypoints_data := kd
        fps := env.fps
        total_frames := env.totalFrames
        duration := if env.fps > 0 then (env.totalFrames : ℚ) / env.fps else 0
        analysis := analyzeCompensation kd
        key_moments := extractKeyMoments readOk stem kd env.fps })

/-- Replace every per-frame exception of a detector by "not detected". -/
def errToNotDetected (detect : ℕ → Except Unit (Option (ℕ → RawLandmark))) :
    ℕ → Except Unit (Option (ℕ → RawLandmark)) :=
  fun f => match detect f with
  | .error _ => .ok none
  | .ok v => .ok v

/-- Claim C7: a per-frame detection exception is equivalent to "not detected"
for that frame alone (swapping exceptions for empty detections leaves the
extracted records unchanged) and never aborts the run: `analyze_video` fails
with `fileNotFound` exactly when the file is missing and with `openFailed`
exactly when the file exists, the detector is available and the source cannot
be opened — never because of `detect`. -/
theorem analyzeVideo_error_policy :
    ∀ (dAvail : Bool) (sinv : ℕ → ℚ) (env : VideoEnv)
      (detect : ℕ → Except Unit (Option (ℕ → RawLandmark))) (readOk : ℕ → Bool)
      (stem : String),
      (analyzeVideo dAvail sinv env detect readOk stem = .error .fileNotFound ↔
        env.fileExists = false) ∧
      (analyzeVideo dAvail sinv env detect readOk stem = .error .openFailed ↔
        (env.fileExists = true ∧ dAvail = true ∧ env.canOpen = false)) ∧
      detectLoop detect env.fps env.readFrames =
        detectLoop (errToNotDetected detect) env.fps env.readFrames := by
  intro dAvail sinv env detect readOk stem
  refine ⟨?_, ?_, ?_⟩
  · cases hfe : env.fileExists <;> cases hda : dAvail <;> cases hco : env.canOpen <;>
      simp [analyzeVideo, hfe, hda, hco]
  · cases hfe : env.fileExists <;> cases hda : dAvail <;> cases hco : env.canOpen <;>
      simp [analyzeVideo, hfe, hda, hco]
  · unfold detectLoop
    apply List.filterMap_congr
    intro frame _
    unfold errToNotDetected
    by_cases hm : frame % 2 = 0
    · cases hv : detect frame with
      | error e => simp [hm, hv]
      | ok v => cases v <;> simp [hm, hv]
    · simp [hm]

/-- Claim C10: every record appended by the detection loop carries exactly the
9 fixed landmarks in `POSE_LANDMARKS` order, so every non-empty loop output
passes the analyzer's required-landmark check and the "Insufficient data for
analysis" branch is unreachable from the loop. -/
theorem extractKeypoints_complete :
    (∀ lm : ℕ → RawLandmark, (extractKeypoints lm).map (fun kp => kp.name) =
      ["nose", "left_shoulder", "right_shoulder", "left_hip", "right_hip",
       "left_knee", "right_knee", "left_ankle", "right_ankle"]) ∧
    (∀ (detect : ℕ → Except Unit (Option (ℕ → RawLandmark))) (fps : ℚ) (n : ℕ),
      detectLoop detect fps n ≠ [] →
      ∃ a, analyzeCompensation (detectLoop detect fps n) = .full a) := by
  refine ⟨fun lm => rfl, ?_⟩
  intro detect fps n hne
  obtain ⟨fr, hfr⟩ := List.exists_mem_of_ne_nil _ hne
  have hlm : ∃ lm, fr.keypoints = extractKeypoints lm := by
    unfold detectLoop at hfr
    obtain ⟨frame, hframe, hsome⟩ := List.mem_filterMap.mp hfr
    split at hsome
    · split at hsome
      · exact absurd hsome (by simp)
      · exact absurd hsome (by simp)
      · rename_i lm heq
        refine ⟨lm, ?_⟩
        rw [← Option.some.inj hsome]
    · exact absurd hsome (by simp)
  obtain ⟨lm, hkp⟩ := hlm
  have hq : specQualifies fr = true := by
    unfold specQualifies
    rw [hkp]
    rfl
  have hfil : fr ∈ (detectLoop detect fps n).filter specQualifies :=
    List.mem_filter.mpr ⟨hfr, hq⟩
  exact ⟨_, analyzeCompensation_char _ (List.ne_nil_of_mem hfil)⟩

/-- A detector that finds a constant pose on every frame, used to instantiate
the loop claims. -/
def cDetect : ℕ → Except Unit (Option (ℕ → RawLandmark)) :=
  fun _ => .ok (some (fun _ => { x := 0, y := 0, z := 0, visibility := 1 }))

theorem extractKeypoints_complete_witness :
    detectLoop cDetect 30 1 ≠ [] ∧
      (∃ a, analyzeCompensation (detectLoop cDetect 30 1) = .full a) ∧
      (extractKeypoints (fun _ => { x := 0, y := 0, z := 0, visibility := 1 })).map
          (fun kp => kp.name) =
        ["nose", "left_shoulder", "right_shoulder", "left_hip", "right_hip",
         "left_knee", "right_knee", "left_ankle", "right_ankle"] :=
  ⟨by decide, extractKeypoints_complete.2 cDetect 30 1 (by decide),
    extractKeypoints_complete.1 _⟩

/-! Overlay renderer (`_draw_skeleton_on_frame`). Images are buffers in a
store indexed by buffer ids (Python objects are references; `frame.copy()`
allocates a fresh buffer and every cv2 call mutates only the buffer it is
given). The cv2 rasterization primitives are external; they are abstracted as
a parameter assumed to preserve image dimensions. -/

/-- A BGR color triple. -/
abbrev Color := ℕ × ℕ × ℕ

/-- Palette constants of `_draw_skeleton_on_frame` (BGR). -/
def colorGreen : Color := (136, 255, 0)

/-- Red "problem" color. -/
def colorRed : Color := (68, 68, 255)

/-- Yellow "attention" color. -/
def colorYellow : Color := (11, 158, 245)

/-- Grey used for the reference line and the shift arrow. -/
def colorGrey : Color := (200, 200, 200)

/-- White used for outlines and text. -/
def colorWhite : Color := (255, 255, 255)

/-- Black used for the text-box background. -/
def colorBlack : Color := (0, 0, 0)

/-- Lines 349-382: the (left, right, center) colors chosen from the metrics. -/
def skeletonColors : Option SessionMetrics → Color × Color × Color
  | some m =>
    let hip_shift := m.avg_hip_shift
    let knee_asymmetry := m.avg_knee_asymmetry
    let max_compensation := max hip_shift knee_asymmetry
    let problem_color :=
      if max_compensation > 2/100 then colorRed
      else if max_compensation > 1/100 then colorYellow
      else colorGreen
    let healthy_color := colorGreen
    let left_color := if m.compensating_side = "left" then problem_color else healthy_color
    let right_color := if m.compensating_side = "left" then healthy_color else problem_color
    let center_color := if hip_shift > 15/1000 then colorYellow else colorGreen
    (left_color, right_color, center_color)
  | none => (colorGreen, colorGreen, colorGreen)

/-- Python `int()` truncation toward zero of a rational. -/
def pyInt (q : ℚ) : ℤ := Int.tdiv q.num (q.den : ℤ)

/-- `does s contain sub starting at its head?` over character lists. -/
def beginsWith : List Char → List Char → Bool
  | _, [] => true
  | [], _ :: _ => false
  | c :: cs, d :: ds => c == d && beginsWith cs ds

/-- Contiguous-substring test over character lists. -/
def hasSub : List Char → List Char → Bool
  | [], sub => sub.isEmpty
  | c :: cs, sub => beginsWith (c :: cs) sub || hasSub cs sub

/-- Python `sub in s` on strings. -/
def strHasSub (s sub : String) : Bool := hasSub s.toList sub.toList

/-- The `points` dictionary: pixel coordinates by landmark name (a later
duplicate name overwrites an earlier one, as in a Python dict). -/
def pointLookup (kps : List Keypoint) (w h : ℕ) (n : String) : Option (ℤ × ℤ) :=
  ((kps.filter (fun kp => kp.name == n)).getLast?).map
    (fun kp => (pyInt (kp.x * w), pyInt (kp.y * h)))

/-- The names of the `points` dictionary in iteration order (first occurrence
keeps its position; Python dict semantics). -/
def dictNames (kps : List Keypoint) : List String :=
  kps.enum.filterMap (fun p =>
    if ((kps.take p.1).map (fun kp => kp.name)).contains p.2.name then none
    else some p.2.name)

/-- The color a joint marker gets from its name (`"left" in name`,
`"right" in name`, else center). -/
def pointColor (lc rc cc : Color) (name : String) : Color :=
  if strHasSub name "left" then lc
  else if strHasSub name "right" then rc
  else cc

/-- The `connections` list of line 390-403 with its per-segment colors. -/
def connections (lc rc cc : Color) : List (String × String × Color) :=
  [("left_shoulder", "left_hip", lc), ("left_hip", "left_knee", lc),
   ("left_knee", "left_ankle", lc),
   ("right_shoulder", "right_hip", rc), ("right_hip", "right_knee", rc),
   ("right_knee", "right_ankle", rc),
   ("left_hip", "right_hip", cc)]

/-- One abstract cv2 drawing call with its arguments. -/
inductive DrawOp where
  | line (p q : ℤ × ℤ) (c : Color) (t : ℕ)
  | circle (p : ℤ × ℤ) (r : ℕ) (c : Color) (t : ℤ)
  | rect (p q : ℤ × ℤ) (c : Color) (t : ℤ)
  | text (s : String) (p : ℤ × ℤ) (scale : ℚ) (c : Color) (t : ℕ)
  | arrow (p q : ℤ × ℤ) (c : Color) (t : ℕ)

/-- An image buffer: dimensions plus pixel contents. -/
structure Img where
  w : ℕ
  h : ℕ
  pix : ℕ → ℕ → Color

/-- The external cv2 primitives: `apply` rasterizes one drawing call onto an
image, `textSize` is `cv2.getTextSize(...)[0]`. -/
structure CVPrims where
  apply : Img → DrawOp → Img
  textSize : String → ℚ → ℕ → ℕ × ℕ

/-- cv2 drawing primitives never change the size of the image they draw on. -/
def DimPreserving (cv : CVPrims) : Prop :=
  ∀ img op, (cv.apply img op).w = img.w ∧ (cv.apply img op).h = img.h

/-- The ordered drawing calls of `_draw_skeleton_on_frame` (lines 384-458):
reference line, limb segments, joint markers, text box, shift arrow. -/
def skeletonOps (textSize : String → ℚ → ℕ → ℕ × ℕ) (w h : ℕ) (kps : List Keypoint)
    (metrics : Option SessionMetrics) : List DrawOp :=
  let pts := fun n => pointLookup kps w h n
  let colors := skeletonColors metrics
  let lc := colors.1
  let rc := colors.2.1
  let cc := colors.2.2
  let centerLineOps :=
    match pts "left_hip", pts "right_hip" with
    | some lhp, some rhp =>
      let hcx := (lhp.1 + rhp.1).fdiv 2
      [DrawOp.line (hcx, 0) (hcx, (h : ℤ)) colorGrey 2]
    | _, _ => []
  let connOps := (connections lc rc cc).filterMap (fun c =>
    match pts c.1, pts c.2.1 with
    | some p, some q => some (DrawOp.line p q c.2.2 4)
    | _, _ => none)
  let pointOps := (dictNames kps).flatMap (fun n =>
    match pts n with
    | some p => [DrawOp.circle p 8 (pointColor lc rc cc n) (-1),
                 DrawOp.circle p 10 colorWhite 2]
    | none => [])
  let textOps :=
    match metrics with
    | some m =>
      let max_compensation := max m.avg_hip_shift m.avg_knee_asymmetry
      if max_compensation > 1/100 then
        let txt := m.compensating_side.toUpper ++ " leg compensation"
        let ts := textSize txt (8/10) 2
        [DrawOp.rect (20, 20) ((ts.1 : ℤ) + 40, 70) colorBlack (-1),
         DrawOp.rect (20, 20) ((ts.1 : ℤ) + 40, 70) colorWhite 2,
         DrawOp.text txt (30, 55) (8/10) colorWhite 2]
      else []
    | none => []
  let arrowOps :=
    match pts "left_hip", pts "right_hip", metrics with
    | some lhp, some rhp, some m =>
      let hcx := (lhp.1 + rhp.1).fdiv 2
      let shift := |hcx - ((w : ℤ)).fdiv 2|
      if (shift : ℚ) > (w : ℚ) * (5/100) then
        let arrow_y := (h : ℤ) - 50
        let asx := ((w : ℤ)).fdiv 2
        let aex := asx + (if m.shift_direction = "right" then 100 else -100)
        [DrawOp.arrow (asx, arrow_y) (aex, arrow_y) colorGrey 3,
         DrawOp.text ("Body shift " ++ m.shift_direction)
           (((w : ℤ)).fdiv 2 - 80, arrow_y - 15) (6/10) colorGrey 2]
      else []
    | _, _, _ => []
  centerLineOps ++ connOps ++ pointOps ++ textOps ++ arrowOps

/-- `_draw_skeleton_on_frame` at the buffer level: `annotated = frame.copy()`
allocates buffer `nextId`, all drawing calls hit that buffer, and it is
returned; the result is the new store, the returned buffer id, and the next
fresh id. -/
def drawSkeletonOnFrame (cv : CVPrims) (store : ℕ → Img) (nextId frameId : ℕ)
    (kps : List Keypoint) (metrics : Option SessionMetrics) : (ℕ → Img) × ℕ × ℕ :=
  let frame := store frameId
  let annotated := (skeletonOps cv.textSize frame.w frame.h kps metrics).foldl cv.apply frame
  (fun i => if i = nextId then annotated else store i, nextId, nextId + 1)

theorem foldl_apply_dims (cv : CVPrims) (hcv : DimPreserving cv) (ops : List DrawOp) :
    ∀ img : Img, ((ops.foldl cv.apply img).w = img.w ∧ (ops.foldl cv.apply img).h = img.h) := by
  induction ops with
  | nil => exact fun img => ⟨rfl, rfl⟩
  | cons op rest ih =>
    intro img
    obtain ⟨hw, hh⟩ := ih (cv.apply img op)
    exact ⟨hw.trans (hcv img op).1, hh.trans (hcv img op).2⟩

/-- Claim C9: under dimension-preserving drawing primitives, rendering onto a
fresh buffer returns an output buffer distinct from the input whose width and
height equal the input frame's, and the input frame's buffer is left exactly
as it was. -/
theorem drawSkeleton_no_mutation (cv : CVPrims) (hcv : DimPreserving cv)
    (store : ℕ → Img) (nextId frameId : ℕ) (kps : List Keypoint)
    (metrics : Option SessionMetrics) (hfresh : frameId ≠ nextId) :
    ((drawSkeletonOnFrame cv store nextId frameId kps metrics).1 frameId = store frameId) ∧
      ((drawSkeletonOnFrame cv store nextId frameId kps metrics).1
          (drawSkeletonOnFrame cv store nextId frameId kps metrics).2.1).w =
        (store frameId).w ∧
      ((drawSkeletonOnFrame cv store nextId frameId kps metrics).1
          (drawSkeletonOnFrame cv store nextId frameId kps metrics).2.1).h =
        (store frameId).h ∧
      (drawSkeletonOnFrame cv store nextId frameId kps metrics).2.1 ≠ frameId := by
  refine ⟨?_, ?_, ?_, ?_⟩
  · simp [drawSkeletonOnFrame, hfresh]
  · simp only [drawSkeletonOnFrame, if_pos rfl]
    exact (foldl_apply_dims cv hcv _ (store frameId)).1
  · simp only [drawSkeletonOnFrame, if_pos rfl]
    exact (foldl_apply_dims cv hcv _ (store frameId)).2
  · exact fun he => hfresh he.symm

/-- Identity drawing primitives, used only to instantiate the renderer claim. -/
def idPrims : CVPrims := { apply := fun img _ => img, textSize := fun _ _ _ => (0, 0) }

/-- A two-buffer store with a 2×3 input frame in buffer 0. -/
def cStore : ℕ → Img := fun _ => { w := 2, h := 3, pix := fun _ _ => colorBlack }

theorem drawSkeleton_no_mutation_witness :
    ((drawSkeletonOnFrame idPrims cStore 1 0 [] none).1 0 = cStore 0) ∧
      ((drawSkeletonOnFrame idPrims cStore 1 0 [] none).1
          (drawSkeletonOnFrame idPrims cStore 1 0 [] none).2.1).w = (cStore 0).w ∧
      ((drawSkeletonOnFrame idPrims cStore 1 0 [] none).1
          (drawSkeletonOnFrame idPrims cStore 1 0 [] none).2.1).h = (cStore 0).h ∧
      (drawSkeletonOnFrame idPrims cStore 1 0 [] none).2.1 ≠ 0 :=
  drawSkeleton_no_mutation idPrims (fun _ _ => ⟨rfl, rfl⟩) cStore 1 0 [] none
    (by decide)

/-- Spec-side severity tier from the spec's wording. -/
def specTier (severity : ℚ) : String :=
  if severity > 2/100 then "problem" else if severity > 1/100 then "attention" else "ok"

/-- Spec-side tier palette. -/
def paletteColor : String → Color
  | "problem" => colorRed
  | "attention" => colorYellow
  | _ => colorGreen

theorem paletteTier_eq (sev : ℚ) :
    (if sev > 2/100 then colorRed else if sev > 1/100 then colorYellow else colorGreen) =
      paletteColor (specTier sev) := by
  unfold specTier
  by_cases h2 : sev > 2/100
  · rw [if_pos h2, if_pos h2]; rfl
  · rw [if_neg h2, if_neg h2]
    by_cases h1 : sev > 1/100
    · rw [if_pos h1, if_pos h1]; rfl
    · rw [if_neg h1, if_neg h1]; rfl

/-- Claim C8: with metrics, the side named by `compensating_side` is drawn in
the tier color of `severity = max(avg_hip_shift, avg_knee_asymmetry)`
(problem above 0.02, attention above 0.01, ok otherwise), the other side in
the ok color, and the hip-to-hip segment and the center/head point color is
the attention color exactly when `avg_hip_shift > 0.015`; without metrics all
three colors are the ok color. -/
theorem overlay_color_policy :
    (∀ m : SessionMetrics,
      skeletonColors (some m) =
        ((if m.compensating_side = "left" then
            paletteColor (specTier (max m.avg_hip_shift m.avg_knee_asymmetry))
          else paletteColor "ok"),
         (if m.compensating_side = "left" then paletteColor "ok"
          else paletteColor (specTier (max m.avg_hip_shift m.avg_knee_asymmetry))),
         (if m.avg_hip_shift > 15/1000 then paletteColor "attention"
          else paletteColor "ok"))) ∧
    skeletonColors none = (paletteColor "ok", paletteColor "ok", paletteColor "ok") ∧
    (∀ lc rc cc : Color, ("left_hip", "right_hip", cc) ∈ connections lc rc cc ∧
      pointColor lc rc cc "nose" = cc) := by
  refine ⟨?_, rfl, ?_⟩
  · intro m
    by_cases hs : m.compensating_side = "left"
    · simp only [skeletonColors, if_pos hs]
      refine Prod.ext ?_ (Prod.ext ?_ ?_)
      · exact paletteTier_eq _
      · rfl
      · rfl
    · simp only [skeletonColors, if_neg hs]
      refine Prod.ext ?_ (Prod.ext ?_ ?_)
      · rfl
      · exact paletteTier_eq _
      · rfl
  · intro lc rc cc
    refine ⟨by simp [connections], ?_⟩
    have hleft : strHasSub "nose" "left" = false := by decide
    have hright : strHasSub "nose" "right" = false := by decide
    simp [pointColor, hleft, hright]

end RehabMotion
